import Mathlib

/-!
Shallow embedding of the pet life-simulation engine and the menu input
handler of the ESP32-Tamagotchi firmware
(src/firmware/components/pet/pet.c, src/firmware/components/game/game.c),
together with theorems settling the specification claims about them.

Machine integers are embedded as Nat with explicit reductions where the C
code uses a narrower type: uint8_t arithmetic reduces mod 256, uint16_t
mod 65536, uint32_t mod 2^32, and a uint32_t value converted to the
int32_t parameter of clamp_stat wraps into [-2^31, 2^31).  The millisecond
clock (esp_timer) and the hardware random source (esp_random) are passed
as explicit parameters.
-/

namespace Tama

/-- Reduction of uint8_t arithmetic (pet.c stores stat decay amounts in a
uint8_t local). -/
def u8 (n : Nat) : Nat := n % 256

/-- Reduction of uint16_t arithmetic (care counters are uint16_t). -/
def u16 (n : Nat) : Nat := n % 65536

/-- Reduction of uint32_t arithmetic (age and timestamps are uint32_t). -/
def u32 (n : Nat) : Nat := n % 4294967296

/-- uint32_t subtraction a - b (wraps modulo 2^32). -/
def u32_sub (a b : Nat) : Nat :=
  (a % 4294967296 + (4294967296 - b % 4294967296)) % 4294967296

/-- Conversion of a uint32_t value to int32_t (two-complement wrap), as
performed by the implementation when a uint32_t expression is passed to
the int32_t parameter of clamp_stat. -/
def int32_of_u32 (n : Nat) : Int :=
  if n < 2147483648 then (n : Int) else (n : Int) - 4294967296

/-- pet.c clamp_stat: clamp an int32_t value to [PET_STAT_MIN, PET_STAT_MAX]
= [0, 100], returned as the uint8_t stat value. -/
def clamp_stat (value : Int) : Nat :=
  if value < 0 then 0 else if value > 100 then 100 else value.toNat

/-- pet.c clamp_weight: clamp an int32_t value to [1, 99]. -/
def clamp_weight (value : Int) : Nat :=
  if value < 1 then 1 else if value > 99 then 99 else value.toNat

/-- pet.h pet_stage_t. -/
inductive Stage where
  | egg | baby | child | teen | adult | dead
  deriving DecidableEq, Repr

/-- pet.h pet_mood_t. -/
inductive Mood where
  | happy | normal | sad | hungry | sleepy | sick | sleeping
  deriving DecidableEq, Repr

/-- pet.h pet_activity_t. -/
inductive Activity where
  | idle | eating | playing | sleeping | sick | happy | hatching
  deriving DecidableEq, Repr

/-- pet.h food_type_t. -/
inductive Food where
  | fish | shrimp
  deriving DecidableEq, Repr

/-- pet.h pet_state_t.  Stats are uint8_t, counters uint16_t, ages and
timestamps uint32_t; all embedded as Nat (every write keeps them inside
the corresponding range). -/
structure PetState where
  hunger : Nat
  happiness : Nat
  health : Nat
  energy : Nat
  weight : Nat
  discipline : Nat
  stage : Stage
  age_minutes : Nat
  birth_time : Nat
  mood : Mood
  activity : Activity
  is_sick : Bool
  has_poop : Bool
  poop_count : Nat
  is_sleeping : Bool
  attention_needed : Bool
  last_update_ms : Nat
  last_fed_ms : Nat
  last_played_ms : Nat
  last_poop_ms : Nat
  sleep_start_ms : Nat
  games_won : Nat
  games_played : Nat
  times_fed : Nat
  times_played : Nat
  times_cleaned : Nat
  times_medicated : Nat
  deriving DecidableEq, Repr

/-- pet.c pet_new (lines 212-255): fresh egg state.  The parameter now is
the millisecond clock value read by get_ms(). -/
def pet_new (now : Nat) : PetState :=
  { hunger := 50
    happiness := 50
    health := 100
    energy := 100
    weight := 20
    discipline := 0
    stage := Stage.egg
    age_minutes := 0
    birth_time := now / 1000
    mood := Mood.normal
    activity := Activity.hatching
    is_sick := false
    has_poop := false
    poop_count := 0
    is_sleeping := false
    attention_needed := false
    last_update_ms := now
    last_fed_ms := now
    last_played_ms := now
    last_poop_ms := now
    sleep_start_ms := 0
    games_won := 0
    games_played := 0
    times_fed := 0
    times_played := 0
    times_cleaned := 0
    times_medicated := 0 }

/-- pet.c update_mood (lines 98-131): recompute the mood from the current
stats, by priority Sleeping, Sick, Hungry, Sleepy, Sad, Happy, Normal
(PET_CRITICAL = 20). -/
def update_mood (s : PetState) : PetState :=
  { s with mood :=
      if s.is_sleeping then Mood.sleeping
      else if s.is_sick then Mood.sick
      else if s.hunger < 20 then Mood.hungry
      else if s.energy < 20 then Mood.sleepy
      else if s.happiness < 20 then Mood.sad
      else if 80 ≤ s.happiness ∧ 60 ≤ s.hunger ∧ 70 ≤ s.health then Mood.happy
      else Mood.normal }

/-- pet.c update_life_stage (lines 136-165): stage promotion keyed off the
current stage and the accumulated age (EGG_DURATION_MIN = 2,
BABY_DURATION_MIN = 2880, CHILD_DURATION_MIN = 5760,
TEEN_DURATION_MIN = 10080 minutes). -/
def update_life_stage (s : PetState) : PetState :=
  if s.stage = Stage.dead then s
  else if s.stage = Stage.egg then
    if 2 ≤ s.age_minutes then { s with stage := Stage.baby } else s
  else if s.age_minutes < 2880 then { s with stage := Stage.baby }
  else if s.age_minutes < 2880 + 5760 then
    if s.stage = Stage.baby then { s with stage := Stage.child } else s
  else if s.age_minutes < 2880 + 5760 + 10080 then
    if s.stage = Stage.child then { s with stage := Stage.teen } else s
  else
    if s.stage = Stage.teen then { s with stage := Stage.adult } else s

/-- pet.c calculate_health lines 172-191: the int32_t health_target
accumulated by the successive subtractions (hunger deficit below 50
halved, happiness deficit below 40 divided by 3, 10 per poop, 20 flat
while sick). -/
def health_target (s : PetState) : Int :=
  let t0 : Int := 100
  let t1 : Int := if s.hunger < 50 then t0 - ((50 - s.hunger : Nat) / 2 : Nat) else t0
  let t2 : Int := if s.happiness < 40 then t1 - ((40 - s.happiness : Nat) / 3 : Nat) else t1
  let t3 : Int := t2 - (s.poop_count : Int) * 10
  if s.is_sick then t3 - 20 else t3

/-- pet.c calculate_health (lines 170-199): pull health one point toward
the computed target; health never increases while sick. -/
def calculate_health (s : PetState) : PetState :=
  if (s.health : Int) > health_target s then
    { s with health := clamp_stat ((s.health : Int) - 1) }
  else if (s.health : Int) < health_target s ∧ s.is_sick = false then
    { s with health := clamp_stat ((s.health : Int) + 1) }
  else s

/-- pet.c pet_wake (lines 453-469): fails when not sleeping; applies a
happiness penalty when woken with energy below 80. -/
def pet_wake (s : PetState) : Bool × PetState :=
  if s.is_sleeping = false then (false, s)
  else
    let s1 := if s.energy < 80 then
        { s with happiness := clamp_stat ((s.happiness : Int) - 10) }
      else s
    (true, { s1 with is_sleeping := false, sleep_start_ms := 0,
                     activity := Activity.idle })

/-- pet.c pet_update lines 286-288: hunger decay.  The decay amount is a
uint8_t local (elapsed_min * HUNGER_DECAY_PER_MIN, doubled while sick), so
it is reduced mod 256 before the subtraction. -/
def hunger_step (m : Nat) (s : PetState) : PetState :=
  let d0 := u8 (m * 2)
  let d1 := if s.is_sick then u8 (d0 * 2) else d0
  { s with hunger := clamp_stat ((s.hunger : Int) - d1) }

/-- pet.c pet_update lines 291-292: happiness decay, a uint8_t local
elapsed_min * HAPPINESS_DECAY_PER_MIN. -/
def happiness_step (m : Nat) (s : PetState) : PetState :=
  { s with happiness := clamp_stat ((s.happiness : Int) - u8 (m * 1)) }

/-- pet.c pet_update lines 294-306: energy restore while sleeping (with
automatic wake at full energy) or drain while awake.  The awake drain
s_pet.energy - elapsed_min is computed in uint32_t and converted to the
int32_t argument of clamp_stat. -/
def energy_step (m : Nat) (s : PetState) : PetState :=
  if s.is_sleeping then
    let s1 := { s with
      energy := clamp_stat (int32_of_u32 (u32 (s.energy + m * 5))) }
    if 100 ≤ s1.energy then (pet_wake s1).2 else s1
  else
    { s with energy := clamp_stat (int32_of_u32 (u32_sub s.energy (m * 1))) }

/-- pet.c pet_update lines 308-319: probabilistic poop generation once at
least POOP_INTERVAL_MIN = 30 minutes passed since the last poop while
awake; chance ramps to 100% at POOP_INTERVAL_MAX = 90.  The parameter
rand is the uint32_t drawn by esp_random(), and random_range(0,100) is
rand % 101. -/
def poop_step (now rand : Nat) (s : PetState) : PetState :=
  let since := u32_sub now s.last_poop_ms / 60000
  if 30 ≤ since ∧ s.is_sleeping = false then
    let chance := (since - 30) * 100 / 60
    if rand % 101 < chance then
      { s with has_poop := true, poop_count := u8 (s.poop_count + 1),
               last_poop_ms := now }
    else s
  else s

/-- pet.c pet_update lines 321-324: per-tick health penalty of
poop_count * POOP_HEALTH_PENALTY_PER_MIN while poop is outstanding. -/
def poop_penalty_step (s : PetState) : PetState :=
  if s.has_poop then
    { s with health := clamp_stat ((s.health : Int) - (s.poop_count : Int) * 1) }
  else s

/-- pet.c pet_update lines 329-333: health below SICK_THRESHOLD = 30 sets
is_sick. -/
def sick_check (s : PetState) : PetState :=
  if s.health < 30 ∧ s.is_sick = false then { s with is_sick := true } else s

/-- pet.c pet_update lines 335-340: health exactly 0 sets stage Dead. -/
def death_check (s : PetState) : PetState :=
  if s.health = 0 then { s with stage := Stage.dead, activity := Activity.idle }
  else s

/-- pet.c pet_update lines 284-341: the stat decay block run when at least
one minute elapsed and the stage is past the egg, in source order. -/
def decay_block (m now rand : Nat) (s : PetState) : PetState :=
  death_check (sick_check (calculate_health (poop_penalty_step
    (poop_step now rand (energy_step m (happiness_step m (hunger_step m s)))))))

/-- pet.c pet_update lines 351-356: the attention flag recomputed from the
critical-stat and care conditions (PET_CRITICAL = 20). -/
def attention_of (s : PetState) : Bool :=
  decide (s.hunger < 20) || decide (s.happiness < 20) ||
  decide (s.health < 20) || decide (s.energy < 20) ||
  s.has_poop || s.is_sick

/-- pet.c pet_update lines 347-358: the unconditional tail of every
update call: recompute mood, recompute the attention flag from the
resulting state, and stamp last_update_ms with the current clock. -/
def finalize (now : Nat) (s : PetState) : PetState :=
  let s2 := update_mood s
  let s3 := { s2 with attention_needed := attention_of s2 }
  { s3 with last_update_ms := now }

/-- pet.c pet_update (lines 271-359): early return when dead; otherwise
whole elapsed minutes delta_ms / 60000 drive aging, the decay block (past
egg) and stage promotion; mood and attention are recomputed on every call
and last_update_ms is set to the current clock value. -/
def pet_update (delta_ms now rand : Nat) (s : PetState) : PetState :=
  if s.stage = Stage.dead then s
  else
    let m := delta_ms / 60000
    let s1 :=
      if 0 < m then
        let sa := { s with age_minutes := u32 (s.age_minutes + m) }
        let sb := if sa.stage = Stage.egg then sa else decay_block m now rand sa
        update_life_stage sb
      else s
    finalize now s1

/-- pet.c pet_apply_time_away (lines 361-374): no-op at 0, away minutes
capped at 48 * 60 = 2880, then pet_update with the minutes converted to
milliseconds. -/
def pet_apply_time_away (away_minutes now rand : Nat) (s : PetState) : PetState :=
  if away_minutes = 0 then s
  else
    let capped := if 2880 < away_minutes then 2880 else away_minutes
    pet_update (capped * 60000) now rand s

/-- pet.c pet_feed (lines 380-408): rejected when dead, egg or sleeping;
fish grants hunger +20 and weight +3, shrimp hunger +8, happiness +10 and
weight +1; a health penalty of OVERFEED_PENALTY = 5 applies when hunger
was already at or above PET_OVERFEED = 90 before the gain. -/
def pet_feed (food : Food) (now : Nat) (s : PetState) : Bool × PetState :=
  if s.stage = Stage.dead ∨ s.stage = Stage.egg then (false, s)
  else if s.is_sleeping then (false, s)
  else
    let overfed := decide (90 ≤ s.hunger)
    let s1 :=
      match food with
      | Food.fish =>
        { s with hunger := clamp_stat ((s.hunger : Int) + 20),
                 weight := clamp_weight ((s.weight : Int) + 3) }
      | Food.shrimp =>
        { s with hunger := clamp_stat ((s.hunger : Int) + 8),
                 happiness := clamp_stat ((s.happiness : Int) + 10),
                 weight := clamp_weight ((s.weight : Int) + 1) }
    let s2 := if overfed then
        { s1 with health := clamp_stat ((s1.health : Int) - 5) }
      else s1
    (true, { s2 with activity := Activity.eating, last_fed_ms := now,
                     times_fed := u16 (s2.times_fed + 1) })

/-- pet.c pet_play_start (lines 410-421): rejected when dead, egg,
sleeping, or energy below PLAY_MIN_ENERGY = 20. -/
def pet_play_start (now : Nat) (s : PetState) : Bool × PetState :=
  if s.stage = Stage.dead ∨ s.stage = Stage.egg then (false, s)
  else if s.is_sleeping then (false, s)
  else if s.energy < 20 then (false, s)
  else
    (true, { s with activity := Activity.playing, last_played_ms := now,
                    games_played := u16 (s.games_played + 1) })

/-- pet.c pet_play_complete (lines 423-438): void, with no stage or
sleeping guard; applies the win or loss happiness gain and energy cost
and always increments times_played. -/
def pet_play_complete (won : Bool) (s : PetState) : PetState :=
  let s1 :=
    if won then
      { s with happiness := clamp_stat ((s.happiness : Int) + 15),
               energy := clamp_stat ((s.energy : Int) - 10),
               games_won := u16 (s.games_won + 1) }
    else
      { s with happiness := clamp_stat ((s.happiness : Int) + 5),
               energy := clamp_stat ((s.energy : Int) - 5) }
  { s1 with times_played := u16 (s1.times_played + 1),
            activity := Activity.idle }

/-- pet.c pet_sleep (lines 440-451): rejected when dead, egg or already
sleeping. -/
def pet_sleep (now : Nat) (s : PetState) : Bool × PetState :=
  if s.stage = Stage.dead ∨ s.stage = Stage.egg then (false, s)
  else if s.is_sleeping then (false, s)
  else
    (true, { s with is_sleeping := true, sleep_start_ms := now,
                    activity := Activity.sleeping })

/-- pet.c pet_toggle_sleep (lines 471-478). -/
def pet_toggle_sleep (now : Nat) (s : PetState) : PetState :=
  if s.is_sleeping then (pet_wake s).2 else (pet_sleep now s).2

/-- pet.c pet_clean (lines 480-490): rejected only when no poop is
outstanding (no stage guard). -/
def pet_clean (s : PetState) : Bool × PetState :=
  if s.has_poop = false then (false, s)
  else
    (true, { s with has_poop := false, poop_count := 0,
                    times_cleaned := u16 (s.times_cleaned + 1) })

/-- pet.c pet_give_medicine (lines 492-502): rejected only when not sick
(no stage guard); restores MEDICINE_HEALTH_RESTORE = 40 health. -/
def pet_give_medicine (s : PetState) : Bool × PetState :=
  if s.is_sick = false then (false, s)
  else
    (true, { s with health := clamp_stat ((s.health : Int) + 40),
                    is_sick := false,
                    times_medicated := u16 (s.times_medicated + 1) })

/-! Game/UI state machine (src/firmware/components/game/game.c), restricted
to the pieces the claims are about: the screen enum, the static cursor and
flag state, change_state, and the GAME_STATE_MENU case of
game_handle_input. -/

/-- game.h game_state_t. -/
inductive GState where
  | splash | main | menu | feed | play | stats | settings | sleep | death | newGame
  deriving DecidableEq, Repr

/-- input.h button identifiers (BUTTON_LEFT, BUTTON_RIGHT). -/
inductive Button where
  | left | right
  deriving DecidableEq, Repr

/-- input.h button event kinds. -/
inductive BEvent where
  | pressed | released | click | longPress | repeat
  deriving DecidableEq, Repr

/-- game.c static UI state (lines 76-86): current screen, screen entry
time, menu cursor (MENU_COUNT = 7 items), scroll offset, food cursor
(FOOD_MENU_COUNT = 3 items), and the menu-active flag. -/
structure GameState where
  state : GState
  state_time_ms : Nat
  menu_selection : Nat
  menu_scroll_offset : Nat
  food_selection : Nat
  menu_active : Bool
  deriving DecidableEq, Repr

/-- game.c change_state (lines 106-118): set the screen and its entry
time; entering Menu sets menu_active, entering Main clears it. -/
def change_state (new : GState) (now : Nat) (g : GameState) : GameState :=
  let g1 := { g with state := new, state_time_ms := now }
  if new = GState.menu then { g1 with menu_active := true }
  else if new = GState.main then { g1 with menu_active := false }
  else g1

/-- game.c game_handle_input, GAME_STATE_MENU case (lines 562-565 and
586-640): the outer filter drops every event other than click and long
press; a left click advances the menu cursor mod MENU_COUNT = 7, a right
click moves it back with wrap; a right long press dispatches the
highlighted item (Feed, Play, Sleep, Clean, Medicine, Stats, Settings) to
the pet simulation and the next screen; a left long press exits to Main.
The Bool in the result records whether minigame_start was invoked. -/
def handle_input_menu (button : Button) (event : BEvent) (now : Nat)
    (g : GameState) (p : PetState) : GameState × PetState × Bool :=
  if event ≠ BEvent.click ∧ event ≠ BEvent.longPress then (g, p, false)
  else if event = BEvent.click then
    if button = Button.left then
      ({ g with menu_selection := (g.menu_selection + 1) % 7 }, p, false)
    else if button = Button.right then
      ({ g with menu_selection :=
           if g.menu_selection = 0 then 7 - 1 else g.menu_selection - 1 },
       p, false)
    else (g, p, false)
  else if button = Button.right ∧ event = BEvent.longPress then
    if g.menu_selection = 0 then
      ({ change_state GState.feed now g with food_selection := 0 }, p, false)
    else if g.menu_selection = 1 then
      let r := pet_play_start now p
      if r.1 then (change_state GState.play now g, r.2, true)
      else (g, r.2, false)
    else if g.menu_selection = 2 then
      let p1 := pet_toggle_sleep now p
      (change_state (if p1.is_sleeping then GState.sleep else GState.main) now g,
       p1, false)
    else if g.menu_selection = 3 then
      (change_state GState.main now g, (pet_clean p).2, false)
    else if g.menu_selection = 4 then
      (change_state GState.main now g, (pet_give_medicine p).2, false)
    else if g.menu_selection = 5 then
      (change_state GState.stats now g, p, false)
    else if g.menu_selection = 6 then
      (change_state GState.main now g, p, false)
    else (g, p, false)
  else if button = Button.left ∧ event = BEvent.longPress then
    (change_state GState.main now { g with menu_active := false }, p, false)
  else (g, p, false)

/-! Operation alphabet for the reachability claims: one constructor per
public mutating call of the pet component, carrying the clock and random
values the call reads. -/

/-- One pet_update or action call, with its clock/random inputs. -/
inductive Op where
  | update (delta_ms now rand : Nat)
  | feed (food : Food) (now : Nat)
  | playStart (now : Nat)
  | playComplete (won : Bool)
  | sleepAct (now : Nat)
  | wakeAct
  | cleanAct
  | medicineAct
  deriving Repr

/-- Apply one call to the pet state (results of the Bool-returning actions
are the post states; a rejected action leaves the state unchanged). -/
def apply_op (op : Op) (s : PetState) : PetState :=
  match op with
  | Op.update delta_ms now rand => pet_update delta_ms now rand s
  | Op.feed food now => (pet_feed food now s).2
  | Op.playStart now => (pet_play_start now s).2
  | Op.playComplete won => pet_play_complete won s
  | Op.sleepAct now => (pet_sleep now s).2
  | Op.wakeAct => (pet_wake s).2
  | Op.cleanAct => (pet_clean s).2
  | Op.medicineAct => (pet_give_medicine s).2

/-- Run a sequence of calls from a starting state. -/
def run_ops (s : PetState) (ops : List Op) : PetState :=
  ops.foldl (fun t op => apply_op op t) s

/-- The clamping invariant of the four core stats. -/
def stats_in_range (s : PetState) : Prop :=
  s.hunger ≤ 100 ∧ s.happiness ≤ 100 ∧ s.health ≤ 100 ∧ s.energy ≤ 100

/-- Concrete live adult state used by witnesses (fresh pet advanced to the
adult stage). -/
def adult_ex : PetState := { pet_new 0 with stage := Stage.adult }

/-- Concrete dead state with outstanding care flags, as left behind by a
death while sick, poopy and asleep. -/
def dead_ex : PetState :=
  { pet_new 0 with stage := Stage.dead, is_sick := true, has_poop := true,
                   poop_count := 2, is_sleeping := true, health := 10, energy := 40 }

/-- Concrete state one tick away from death: health 1, starving, sad,
sick, five outstanding poops. -/
def dying_ex : PetState :=
  { pet_new 0 with stage := Stage.adult, health := 1, hunger := 0, happiness := 0,
                   is_sick := true, has_poop := true, poop_count := 5 }

/-- Concrete menu UI state with the cursor on a given item. -/
def menu_g (sel : Nat) : GameState :=
  { state := GState.menu, state_time_ms := 0, menu_selection := sel,
    menu_scroll_offset := 0, food_selection := 0, menu_active := true }

/-- Concrete awake adult state past the overfeed threshold. -/
def overfed_ex : PetState :=
  { pet_new 0 with stage := Stage.adult, hunger := 95, health := 80 }

/-- Concrete awake adult state too tired to play. -/
def tired_ex : PetState := { pet_new 0 with stage := Stage.adult, energy := 10 }

/-! Helper lemmas. -/

theorem clamp_stat_le (v : Int) : clamp_stat v ≤ 100 := by
  unfold clamp_stat
  split_ifs <;> omega

theorem clamp_stat_eq (v : Int) (h0 : 0 ≤ v) (h1 : v ≤ 100) :
    (clamp_stat v : Int) = v := by
  unfold clamp_stat
  split_ifs <;> omega

theorem clamp_stat_cast_le (v : Int) : (clamp_stat v : Int) ≤ 100 := by
  have := clamp_stat_le v
  omega

theorem clamp_stat_sub_one (n : Nat) (h : n ≤ 100) :
    clamp_stat ((n : Int) - 1) = n - 1 := by
  unfold clamp_stat
  split_ifs <;> omega

theorem clamp_stat_add_one (n : Nat) (h : n ≤ 99) :
    clamp_stat ((n : Int) + 1) = n + 1 := by
  unfold clamp_stat
  split_ifs <;> omega

theorem clamp_stat_sub_exact (n k : Nat) (h1 : k ≤ n) (h2 : n ≤ 100) :
    clamp_stat ((n : Int) - k) = n - k := by
  unfold clamp_stat
  split_ifs <;> omega

theorem health_target_le (s : PetState) : health_target s ≤ 100 := by
  unfold health_target
  dsimp only
  have h1 : (0 : Int) ≤ ((50 - s.hunger) / 2 : Nat) := Int.ofNat_nonneg _
  have h2 : (0 : Int) ≤ ((40 - s.happiness) / 3 : Nat) := Int.ofNat_nonneg _
  have h3 : (0 : Int) ≤ (s.poop_count : Int) * 10 := by positivity
  split_ifs <;> omega

theorem death_check_spec (t : PetState) (h : (death_check t).health = 0) :
    (death_check t).stage = Stage.dead := by
  unfold death_check at h ⊢
  split_ifs at h ⊢ with hz
  · rfl
  · exact absurd h hz

theorem update_life_stage_health (t : PetState) :
    (update_life_stage t).health = t.health := by
  unfold update_life_stage
  split_ifs <;> rfl

theorem update_life_stage_of_dead (t : PetState) (h : t.stage = Stage.dead) :
    update_life_stage t = t := by
  unfold update_life_stage
  rw [if_pos h]

theorem finalize_health (now : Nat) (t : PetState) :
    (finalize now t).health = t.health := rfl

theorem finalize_stage (now : Nat) (t : PetState) :
    (finalize now t).stage = t.stage := rfl

/-- Reduction of pet_update for a live, hatched pet over at least one
whole minute: age, the decay block, stage promotion, then mood, attention
and the update timestamp. -/
theorem pet_update_pos (delta_ms now rand : Nat) (s : PetState)
    (h1 : s.stage ≠ Stage.dead) (h2 : s.stage ≠ Stage.egg)
    (h3 : 0 < delta_ms / 60000) :
    pet_update delta_ms now rand s =
      finalize now (update_life_stage (decay_block (delta_ms / 60000) now rand
        { s with age_minutes := u32 (s.age_minutes + delta_ms / 60000) })) := by
  unfold pet_update
  rw [if_neg h1]
  simp [h2, h3]

/-! Claim theorems. -/

/-- Claim C6: applying offline time of 10000 minutes produces exactly the
same state as applying 2880 minutes, for every starting state, clock
value and random draw, because away time is capped at 48 hours before
conversion to milliseconds. -/
theorem c6_offline_cap (now rand : Nat) (s : PetState) :
    pet_apply_time_away 10000 now rand s = pet_apply_time_away 2880 now rand s := by
  unfold pet_apply_time_away
  norm_num

/-- Claim C4 (code-bug exhibit): pet_update stores the hunger decay in a
uint8_t, so 128 elapsed minutes yield a decay of 256 mod 256 = 0 and an
awake, non-sick pet with hunger 50 keeps hunger 50, while the claimed
decay of 2 points per minute would drive hunger to 0. -/
theorem c4_uint8_truncation :
    (7680000 : Nat) / 60000 = 128 ∧
    adult_ex.hunger = 50 ∧ adult_ex.is_sick = false ∧ adult_ex.is_sleeping = false ∧
    adult_ex.stage = Stage.adult ∧
    (pet_update 7680000 0 0 adult_ex).hunger = 50 := by decide

/-- Claim C3 counterexample: on a concrete dead pet, pet_play_complete
mutates happiness and the play counter, pet_clean and pet_give_medicine
and pet_wake all return success (and clean/medicine mutate the state), so
the actions do not all fail and leave the state unchanged on a Dead
stage. -/
theorem c3_counterexample :
    dead_ex.stage = Stage.dead ∧
    (pet_play_complete true dead_ex).happiness ≠ dead_ex.happiness ∧
    (pet_play_complete true dead_ex).times_played ≠ dead_ex.times_played ∧
    (pet_clean dead_ex).1 = true ∧
    (pet_clean dead_ex).2 ≠ dead_ex ∧
    (pet_give_medicine dead_ex).1 = true ∧
    (pet_give_medicine dead_ex).2.health ≠ dead_ex.health ∧
    (pet_wake dead_ex).1 = true := by decide

/-- Claim C7 counterexample: pet_update with elapsed time 0 on a live pet
overwrites the last_update_ms timer field with the current clock value,
so not every timer field is left unchanged. -/
theorem c7_counterexample :
    (pet_new 0).stage ≠ Stage.dead ∧
    (pet_update 0 5 0 (pet_new 0)).last_update_ms ≠ (pet_new 0).last_update_ms := by
  decide

/-- Claim C7 as amended: for every live pet, pet_update with elapsed time
0 changes nothing except the mood and attention-needed fields, which are
recomputed deterministically from the current stats (independently of the
random input), and the last_update_ms field, which is set to the current
clock value. -/
theorem c7_advance_zero (now rand : Nat) (s : PetState)
    (h : s.stage ≠ Stage.dead) :
    pet_update 0 now rand s =
      { s with mood := (update_mood s).mood,
               attention_needed := attention_of s,
               last_update_ms := now } := by
  unfold pet_update
  rw [if_neg h]
  rfl

/-- Claim C7 witness: the amended statement evaluated on a fresh pet at
clock value 5. -/
theorem c7_advance_zero_witness :
    pet_update 0 5 3 (pet_new 0) =
      { pet_new 0 with mood := (update_mood (pet_new 0)).mood,
                       attention_needed := attention_of (pet_new 0),
                       last_update_ms := 5 } :=
  c7_advance_zero 5 3 (pet_new 0) (by decide)

/-- Claim C2: a pet whose health is driven to exactly 0 by a decay tick
leaves pet_update with stage Dead, and Dead is terminal: pet_update on a
dead pet returns the state with no field changed. -/
theorem c2_death_terminal (delta_ms now rand : Nat) (s : PetState) :
    (s.stage = Stage.dead → pet_update delta_ms now rand s = s) ∧
    (s.stage ≠ Stage.dead → s.stage ≠ Stage.egg → 0 < delta_ms / 60000 →
      (pet_update delta_ms now rand s).health = 0 →
      (pet_update delta_ms now rand s).stage = Stage.dead) := by
  constructor
  · intro h
    unfold pet_update
    rw [if_pos h]
  · intro h1 h2 h3 hh
    rw [pet_update_pos delta_ms now rand s h1 h2 h3] at hh ⊢
    set db := decay_block (delta_ms / 60000) now rand
      { s with age_minutes := u32 (s.age_minutes + delta_ms / 60000) } with hdb
    have hh0 : db.health = 0 := by
      rw [finalize_health, update_life_stage_health] at hh
      exact hh
    have hdead : db.stage = Stage.dead := by
      rw [hdb]
      unfold decay_block
      apply death_check_spec
      rw [hdb] at hh0
      unfold decay_block at hh0
      exact hh0
    rw [finalize_stage, update_life_stage_of_dead db hdead]
    exact hdead

/-- Claim C2 witness: the dead state is a fixed point of pet_update, and
a concrete sick, starving, poop-ridden pet at health 1 dies within one
one-minute tick. -/
theorem c2_death_terminal_witness :
    pet_update 60000 7 9 dead_ex = dead_ex ∧
    (pet_update 60000 0 0 dying_ex).stage = Stage.dead :=
  ⟨(c2_death_terminal 60000 7 9 dead_ex).1 (by decide),
   (c2_death_terminal 60000 0 0 dying_ex).2 (by decide) (by decide) (by decide)
     (by decide)⟩

/-- Claim C5: on a decay tick, calculate_health moves health by at most
one point toward the target 100 minus the halved hunger deficit below 50,
minus a third of the happiness deficit below 40, minus 10 per outstanding
poop, minus 20 flat while sick; health never increases while sick. -/
theorem c5_health_step (s : PetState) (hle : s.health ≤ 100) :
    (health_target s =
        100 - (if s.hunger < 50 then (((50 - s.hunger) / 2 : Nat) : Int) else 0)
            - (if s.happiness < 40 then (((40 - s.happiness) / 3 : Nat) : Int) else 0)
            - (s.poop_count : Int) * 10
            - (if s.is_sick then 20 else 0)) ∧
    ((calculate_health s).health : Int) - (s.health : Int) ≤ 1 ∧
    ((s.health : Int)) - ((calculate_health s).health : Int) ≤ 1 ∧
    (health_target s < (s.health : Int) → (calculate_health s).health ≤ s.health) ∧
    ((s.health : Int) < health_target s → s.health ≤ (calculate_health s).health) ∧
    ((s.health : Int) = health_target s → (calculate_health s).health = s.health) ∧
    (s.is_sick = true → (calculate_health s).health ≤ s.health) := by
  have htle := health_target_le s
  constructor
  · unfold health_target
    dsimp only
    split_ifs <;> ring
  · rcases lt_trichotomy (health_target s) ((s.health : Int)) with hcmp | hcmp | hcmp
    · have e : (calculate_health s).health = s.health - 1 := by
        unfold calculate_health
        rw [if_pos (by omega : (s.health : Int) > health_target s)]
        simpa using clamp_stat_sub_one s.health hle
      refine ⟨by omega, by omega, fun _ => by omega, fun hx => by omega,
              fun hx => by omega, fun _ => by omega⟩
    · have e : (calculate_health s).health = s.health := by
        unfold calculate_health
        rw [if_neg (by omega), if_neg (by simp; omega)]
      refine ⟨by omega, by omega, fun _ => by omega, fun hx => by omega,
              fun _ => by omega, fun _ => by omega⟩
    · cases hsick : s.is_sick with
      | false =>
        have e : (calculate_health s).health = s.health + 1 := by
          unfold calculate_health
          rw [if_neg (by omega), if_pos (by exact ⟨hcmp, hsick⟩)]
          simpa using clamp_stat_add_one s.health (by omega)
        refine ⟨by omega, by omega, fun hx => by omega, fun _ => by omega,
                fun hx => by omega, fun hx => by simp [hsick] at hx⟩
      | true =>
        have e : (calculate_health s).health = s.health := by
          unfold calculate_health
          rw [if_neg (by omega), if_neg (by simp [hsick])]
        refine ⟨by omega, by omega, fun _ => by omega, fun _ => by omega,
                fun _ => by omega, fun _ => by omega⟩

/-- Claim C5 witness: a fresh adult sits exactly at its health target 100
and calculate_health leaves its health unchanged. -/
theorem c5_health_step_witness :
    (calculate_health adult_ex).health = adult_ex.health :=
  (c5_health_step adult_ex (by decide)).2.2.2.2.2.1 (by decide)

/-- Claim C8: feeding a feedable pet whose hunger is already at or above
the overfeed threshold 90 applies both the food gains and the flat health
penalty of 5 in the same call; in particular fish at hunger 95 yields
hunger 100 and health reduced by 5. -/
theorem c8_overfeed (s : PetState) (now : Nat) (food : Food)
    (h1 : s.stage ≠ Stage.dead) (h2 : s.stage ≠ Stage.egg)
    (h3 : s.is_sleeping = false) (h4 : 90 ≤ s.hunger) (h5 : s.health ≤ 100) :
    (pet_feed food now s).1 = true ∧
    (pet_feed food now s).2.health = clamp_stat ((s.health : Int) - 5) ∧
    (5 ≤ s.health → (pet_feed food now s).2.health = s.health - 5) ∧
    (pet_feed Food.fish now s).2.hunger = clamp_stat ((s.hunger : Int) + 20) ∧
    (s.hunger = 95 → (pet_feed Food.fish now s).2.hunger = 100) := by
  have hguard : ¬(s.stage = Stage.dead ∨ s.stage = Stage.egg) := by
    simp [h1, h2]
  refine ⟨?_, ?_, ?_, ?_, ?_⟩
  · unfold pet_feed
    rw [if_neg hguard]
    cases food <;> simp [h3, h4]
  · unfold pet_feed
    rw [if_neg hguard]
    cases food <;> simp [h3, h4]
  · intro hx
    unfold pet_feed
    rw [if_neg hguard]
    have hc := clamp_stat_sub_exact s.health 5 hx h5
    cases food <;> simp [h3, h4] <;> simpa using hc
  · unfold pet_feed
    rw [if_neg hguard]
    simp [h3, h4]
  · intro hx
    unfold pet_feed
    rw [if_neg hguard]
    simp [h3, h4, hx]
    decide

/-- Claim C8 witness: fish at hunger 95 and health 80 yields hunger 100
and health 75. -/
theorem c8_overfeed_witness :
    (pet_feed Food.fish 0 overfed_ex).2.hunger = 100 ∧
    (pet_feed Food.fish 0 overfed_ex).2.health = 75 :=
  ⟨(c8_overfeed overfed_ex 0 Food.fish (by decide) (by decide) (by decide)
      (by decide) (by decide)).2.2.2.2 (by decide),
   ((c8_overfeed overfed_ex 0 Food.fish (by decide) (by decide) (by decide)
      (by decide) (by decide)).2.2.1 (by decide)).trans (by decide)⟩

/-- Claim C3 as amended: pet_feed, pet_play_start and pet_sleep return
failure and leave the state unchanged when the stage is Dead or Egg;
pet_wake, pet_clean and pet_give_medicine check only their own care flag
(sleeping, waste, sickness) and so succeed even on a Dead or Egg stage
when that flag is set, and pet_play_complete has no guard at all and
always increments the play counter. -/
theorem c3_actions_guarded (s : PetState) (food : Food) (won : Bool) (now : Nat)
    (h : s.stage = Stage.dead ∨ s.stage = Stage.egg) :
    pet_feed food now s = (false, s) ∧
    pet_play_start now s = (false, s) ∧
    pet_sleep now s = (false, s) ∧
    (s.is_sleeping = false → pet_wake s = (false, s)) ∧
    (s.has_poop = false → pet_clean s = (false, s)) ∧
    (s.is_sick = false → pet_give_medicine s = (false, s)) ∧
    (s.is_sleeping = true → (pet_wake s).1 = true) ∧
    (s.has_poop = true → (pet_clean s).1 = true) ∧
    (s.is_sick = true → (pet_give_medicine s).1 = true) ∧
    (pet_play_complete won s).times_played = u16 (s.times_played + 1) := by
  refine ⟨?_, ?_, ?_, ?_, ?_, ?_, ?_, ?_, ?_, ?_⟩
  · unfold pet_feed
    rw [if_pos h]
  · unfold pet_play_start
    rw [if_pos h]
  · unfold pet_sleep
    rw [if_pos h]
  · intro hx
    unfold pet_wake
    rw [if_pos hx]
  · intro hx
    unfold pet_clean
    rw [if_pos hx]
  · intro hx
    unfold pet_give_medicine
    rw [if_pos hx]
  · intro hx
    unfold pet_wake
    simp [hx]
  · intro hx
    unfold pet_clean
    simp [hx]
  · intro hx
    unfold pet_give_medicine
    simp [hx]
  · cases won <;> rfl

/-- Claim C3 witness: the amended statement evaluated on the concrete
dead state (asleep, sick and poopy, so the unguarded actions succeed). -/
theorem c3_actions_guarded_witness :
    pet_feed Food.fish 0 dead_ex = (false, dead_ex) ∧
    pet_play_start 0 dead_ex = (false, dead_ex) ∧
    (pet_wake dead_ex).1 = true :=
  ⟨(c3_actions_guarded dead_ex Food.fish true 0 (by exact Or.inl rfl)).1,
   (c3_actions_guarded dead_ex Food.fish true 0 (by exact Or.inl rfl)).2.1,
   (c3_actions_guarded dead_ex Food.fish true 0
      (by exact Or.inl rfl)).2.2.2.2.2.2.1 rfl⟩

/-- Claim C9: menu cursor cycling over the 7 items is circular: a next
(left) click adds one modulo 7, a previous (right) click wraps 0 to 6 and
otherwise subtracts one, and the cursor stays in [0, 6]. -/
theorem c9_menu_cursor (g : GameState) (p : PetState) (now : Nat)
    (h : g.menu_selection ≤ 6) :
    ((handle_input_menu Button.left BEvent.click now g p).1.menu_selection =
        (g.menu_selection + 1) % 7) ∧
    ((handle_input_menu Button.right BEvent.click now g p).1.menu_selection =
        if g.menu_selection = 0 then 6 else g.menu_selection - 1) ∧
    (g.menu_selection = 0 →
      (handle_input_menu Button.right BEvent.click now g p).1.menu_selection = 6) ∧
    (g.menu_selection = 6 →
      (handle_input_menu Button.left BEvent.click now g p).1.menu_selection = 0) ∧
    (g.menu_selection < 6 →
      (handle_input_menu Button.left BEvent.click now g p).1.menu_selection =
        g.menu_selection + 1) ∧
    (0 < g.menu_selection →
      (handle_input_menu Button.right BEvent.click now g p).1.menu_selection =
        g.menu_selection - 1) ∧
    (handle_input_menu Button.left BEvent.click now g p).1.menu_selection ≤ 6 ∧
    (handle_input_menu Button.right BEvent.click now g p).1.menu_selection ≤ 6 := by
  have hl : (handle_input_menu Button.left BEvent.click now g p).1.menu_selection =
      (g.menu_selection + 1) % 7 := by
    unfold handle_input_menu
    simp
  have hr : (handle_input_menu Button.right BEvent.click now g p).1.menu_selection =
      if g.menu_selection = 0 then 7 - 1 else g.menu_selection - 1 := by
    unfold handle_input_menu
    simp
  refine ⟨hl, by rw [hr], ?_, ?_, ?_, ?_, ?_, ?_⟩
  · intro h0
    rw [hr, if_pos h0]
  · intro h6
    rw [hl, h6]
  · intro hlt
    rw [hl]
    omega
  · intro hpos
    rw [hr, if_neg (by omega)]
  · rw [hl]
    omega
  · rw [hr]
    split_ifs <;> omega

/-- Claim C9 witness: a previous click at cursor 0 lands on 6 and a next
click at cursor 6 lands on 0. -/
theorem c9_menu_cursor_witness :
    (handle_input_menu Button.right BEvent.click 0 (menu_g 0) (pet_new 0)).1.menu_selection = 6 ∧
    (handle_input_menu Button.left BEvent.click 0 (menu_g 6) (pet_new 0)).1.menu_selection = 0 :=
  ⟨(c9_menu_cursor (menu_g 0) (pet_new 0) 0 (by decide)).2.2.1 rfl,
   (c9_menu_cursor (menu_g 6) (pet_new 0) 0 (by decide)).2.2.2.1 rfl⟩

/-- Claim C10: confirming the Play menu item while the pet cannot start
playing (dead, egg, asleep or energy below 20) leaves the UI state, the
pet state and the mini-game untouched: the handler returns the inputs
unchanged with no minigame start. -/
theorem c10_play_confirm_blocked (g : GameState) (p : PetState) (now : Nat)
    (hg : g.menu_selection = 1) (hstate : g.state = GState.menu)
    (hp : p.stage = Stage.dead ∨ p.stage = Stage.egg ∨
          p.is_sleeping = true ∨ p.energy < 20) :
    handle_input_menu Button.right BEvent.longPress now g p = (g, p, false) ∧
    (handle_input_menu Button.right BEvent.longPress now g p).1.state = GState.menu := by
  have hps : pet_play_start now p = (false, p) := by
    unfold pet_play_start
    by_cases h1 : p.stage = Stage.dead ∨ p.stage = Stage.egg
    · rw [if_pos h1]
    · rw [if_neg h1]
      rcases hp with hx | hx | hx | hx
      · exact absurd (Or.inl hx) h1
      · exact absurd (Or.inr hx) h1
      · simp [hx]
      · by_cases h2 : p.is_sleeping
        · simp [h2]
        · simp [h2, hx]
  have e : handle_input_menu Button.right BEvent.longPress now g p = (g, p, false) := by
    unfold handle_input_menu
    simp [hg, hps]
  exact ⟨e, by rw [e]; exact hstate⟩

/-- Claim C10 witness: confirming Play with a pet at energy 10 changes
nothing. -/
theorem c10_play_confirm_blocked_witness :
    handle_input_menu Button.right BEvent.longPress 0 (menu_g 1) tired_ex =
      ((menu_g 1), tired_ex, false) :=
  (c10_play_confirm_blocked (menu_g 1) tired_ex 0 rfl rfl (by decide)).1

/-! Preservation of the clamping invariant through every mutating call,
used for claim C1. -/

theorem sir_pet_wake (s : PetState) (h : stats_in_range s) :
    stats_in_range (pet_wake s).2 := by
  obtain ⟨a, b, c, d⟩ := h
  unfold pet_wake
  dsimp only
  split_ifs <;> first
    | exact ⟨a, b, c, d⟩
    | exact ⟨a, clamp_stat_le _, c, d⟩

theorem sir_hunger_step (m : Nat) (s : PetState) (h : stats_in_range s) :
    stats_in_range (hunger_step m s) := by
  obtain ⟨a, b, c, d⟩ := h
  exact ⟨clamp_stat_le _, b, c, d⟩

theorem sir_happiness_step (m : Nat) (s : PetState) (h : stats_in_range s) :
    stats_in_range (happiness_step m s) := by
  obtain ⟨a, b, c, d⟩ := h
  exact ⟨a, clamp_stat_le _, c, d⟩

theorem sir_energy_step (m : Nat) (s : PetState) (h : stats_in_range s) :
    stats_in_range (energy_step m s) := by
  obtain ⟨a, b, c, d⟩ := h
  unfold energy_step
  dsimp only
  split_ifs <;> first
    | exact sir_pet_wake _ ⟨a, b, c, clamp_stat_le _⟩
    | exact ⟨a, b, c, clamp_stat_le _⟩

theorem sir_poop_step (now rand : Nat) (s : PetState) (h : stats_in_range s) :
    stats_in_range (poop_step now rand s) := by
  obtain ⟨a, b, c, d⟩ := h
  unfold poop_step
  dsimp only
  split_ifs <;> exact ⟨a, b, c, d⟩

theorem sir_poop_penalty_step (s : PetState) (h : stats_in_range s) :
    stats_in_range (poop_penalty_step s) := by
  obtain ⟨a, b, c, d⟩ := h
  unfold poop_penalty_step
  split_ifs <;> first
    | exact ⟨a, b, clamp_stat_le _, d⟩
    | exact ⟨a, b, c, d⟩

theorem sir_calculate_health (s : PetState) (h : stats_in_range s) :
    stats_in_range (calculate_health s) := by
  obtain ⟨a, b, c, d⟩ := h
  unfold calculate_health
  split_ifs
  · exact ⟨a, b, clamp_stat_le ((s.health : Int) - 1), d⟩
  · exact ⟨a, b, clamp_stat_le ((s.health : Int) + 1), d⟩
  · exact ⟨a, b, c, d⟩

theorem sir_sick_check (s : PetState) (h : stats_in_range s) :
    stats_in_range (sick_check s) := by
  obtain ⟨a, b, c, d⟩ := h
  unfold sick_check
  split_ifs <;> exact ⟨a, b, c, d⟩

theorem sir_death_check (s : PetState) (h : stats_in_range s) :
    stats_in_range (death_check s) := by
  obtain ⟨a, b, c, d⟩ := h
  unfold death_check
  split_ifs <;> exact ⟨a, b, c, d⟩

theorem sir_decay_block (m now rand : Nat) (s : PetState) (h : stats_in_range s) :
    stats_in_range (decay_block m now rand s) :=
  sir_death_check _ (sir_sick_check _ (sir_calculate_health _
    (sir_poop_penalty_step _ (sir_poop_step now rand _ (sir_energy_step m _
      (sir_happiness_step m _ (sir_hunger_step m _ h)))))))

theorem sir_update_life_stage (s : PetState) (h : stats_in_range s) :
    stats_in_range (update_life_stage s) := by
  obtain ⟨a, b, c, d⟩ := h
  unfold update_life_stage
  split_ifs <;> exact ⟨a, b, c, d⟩

theorem sir_finalize (now : Nat) (t : PetState) (h : stats_in_range t) :
    stats_in_range (finalize now t) := by
  obtain ⟨a, b, c, d⟩ := h
  exact ⟨a, b, c, d⟩

theorem sir_pet_update (delta_ms now rand : Nat) (s : PetState)
    (h : stats_in_range s) : stats_in_range (pet_update delta_ms now rand s) := by
  obtain ⟨a, b, c, d⟩ := h
  unfold pet_update
  dsimp only
  split_ifs with h1 h2 h3
  · exact ⟨a, b, c, d⟩
  · exact sir_finalize now _ (sir_update_life_stage
      { s with age_minutes := u32 (s.age_minutes + delta_ms / 60000) } ⟨a, b, c, d⟩)
  · exact sir_finalize now _ (sir_update_life_stage _
      (sir_decay_block (delta_ms / 60000) now rand
        { s with age_minutes := u32 (s.age_minutes + delta_ms / 60000) } ⟨a, b, c, d⟩))
  · exact sir_finalize now _ ⟨a, b, c, d⟩

theorem sir_pet_feed (food : Food) (now : Nat) (s : PetState)
    (h : stats_in_range s) : stats_in_range (pet_feed food now s).2 := by
  obtain ⟨a, b, c, d⟩ := h
  cases food with
  | fish =>
    unfold pet_feed
    dsimp only
    split_ifs <;>
      simp_all [stats_in_range, clamp_stat_le]
  | shrimp =>
    unfold pet_feed
    dsimp only
    split_ifs <;>
      simp_all [stats_in_range, clamp_stat_le]

theorem sir_pet_play_start (now : Nat) (s : PetState) (h : stats_in_range s) :
    stats_in_range (pet_play_start now s).2 := by
  obtain ⟨a, b, c, d⟩ := h
  unfold pet_play_start
  split_ifs <;> exact ⟨a, b, c, d⟩

theorem sir_pet_play_complete (won : Bool) (s : PetState) (h : stats_in_range s) :
    stats_in_range (pet_play_complete won s) := by
  obtain ⟨a, b, c, d⟩ := h
  unfold pet_play_complete
  dsimp only
  split_ifs
  · exact ⟨a, clamp_stat_le ((s.happiness : Int) + 15), c,
           clamp_stat_le ((s.energy : Int) - 10)⟩
  · exact ⟨a, clamp_stat_le ((s.happiness : Int) + 5), c,
           clamp_stat_le ((s.energy : Int) - 5)⟩

theorem sir_pet_sleep (now : Nat) (s : PetState) (h : stats_in_range s) :
    stats_in_range (pet_sleep now s).2 := by
  obtain ⟨a, b, c, d⟩ := h
  unfold pet_sleep
  split_ifs <;> exact ⟨a, b, c, d⟩

theorem sir_pet_clean (s : PetState) (h : stats_in_range s) :
    stats_in_range (pet_clean s).2 := by
  obtain ⟨a, b, c, d⟩ := h
  unfold pet_clean
  split_ifs <;> exact ⟨a, b, c, d⟩

theorem sir_pet_give_medicine (s : PetState) (h : stats_in_range s) :
    stats_in_range (pet_give_medicine s).2 := by
  obtain ⟨a, b, c, d⟩ := h
  unfold pet_give_medicine
  split_ifs
  · exact ⟨a, b, c, d⟩
  · exact ⟨a, b, clamp_stat_le ((s.health : Int) + 40), d⟩

theorem sir_apply_op (op : Op) (s : PetState) (h : stats_in_range s) :
    stats_in_range (apply_op op s) := by
  cases op with
  | update delta_ms now rand => exact sir_pet_update delta_ms now rand s h
  | feed food now => exact sir_pet_feed food now s h
  | playStart now => exact sir_pet_play_start now s h
  | playComplete won => exact sir_pet_play_complete won s h
  | sleepAct now => exact sir_pet_sleep now s h
  | wakeAct => exact sir_pet_wake s h
  | cleanAct => exact sir_pet_clean s h
  | medicineAct => exact sir_pet_give_medicine s h

/-- Claim C1: from the fresh-pet state, after any sequence of pet_update
and action calls (with any clock and random inputs), each of hunger,
happiness, health and energy is an integer in [0, 100]; since the
sequence is arbitrary, the invariant holds after every call of every
reachable history. -/
theorem c1_stats_in_range (now0 : Nat) (ops : List Op) :
    stats_in_range (run_ops (pet_new now0) ops) := by
  have main : ∀ (l : List Op) (t : PetState),
      stats_in_range t → stats_in_range (run_ops t l) := by
    intro l
    induction l with
    | nil =>
      intro t ht
      simpa [run_ops] using ht
    | cons op rest ih =>
      intro t ht
      have step := sir_apply_op op t ht
      simpa [run_ops] using ih (apply_op op t) step
  have h0 : stats_in_range (pet_new now0) := by
    refine ⟨?_, ?_, ?_, ?_⟩ <;> simp [pet_new]
  exact main ops (pet_new now0) h0

end Tama
